import Mathlib

/-!
Verification of `fetch_ai_papers.py` (market-data-pipeline).

The script is a batch job: resolve OpenAlex topic ids whose field/subfield
display name is "Artificial intelligence"/"Artificial Intelligence", fetch
works filtered by those primary-topic ids and a 3-day publication window,
trim each work's `topics` array to the AI set, and write a JSON snapshot.

We embed the script shallowly: pages returned by the API and the wall-clock
readings become explicit inputs; the script's pure data transformations
become Lean functions mirroring the Python line by line.
-/

namespace FetchAiPapers

/-! ### Source constants (lines 18 and 22 of fetch_ai_papers.py) -/

/-- `AI_FIELD_SUBFIELD_DISPLAY_NAMES = {"Artificial intelligence", "Artificial Intelligence"}`.
Membership is all the set is used for, so a list models it. -/
def AI_FIELD_SUBFIELD_DISPLAY_NAMES : List String :=
  ["Artificial intelligence", "Artificial Intelligence"]

/-- `WORK_TYPE = "article"`; the Python comment says `None = all types`,
so the configurable value is an optional string. -/
def WORK_TYPE : Option String := some "article"

/-! ### `_short_id` (lines 25-29)

```python
def _short_id(oid: str) -> str:
    if not oid:
        return ""
    return oid.rstrip("/").split("/")[-1] if "/" in str(oid) else str(oid)
```
We work on `List Char` so everything reduces in the kernel. -/

/-- Python `oid.rstrip("/")`: drop every trailing `'/'`. -/
def rstripSlash (s : List Char) : List Char :=
  (s.reverse.dropWhile (fun c => c = '/')).reverse

/-- Python `s.split("/")` (always returns a non-empty list of segments). -/
def splitSlashAux : List Char → List Char → List (List Char)
  | [], cur => [cur.reverse]
  | c :: cs, cur =>
    if c = '/' then cur.reverse :: splitSlashAux cs [] else splitSlashAux cs (c :: cur)

def splitSlash (s : List Char) : List (List Char) :=
  splitSlashAux s []

/-- `_short_id` from the source, on `String`. -/
def short_id (oid : String) : String :=
  if oid = "" then ""
  else if oid.data.contains '/' then
    ⟨(splitSlash (rstripSlash oid.data)).getLastD []⟩
  else oid

/-! ### Topic records and the acceptance test (lines 42-47)

API topic records are loosely-typed mappings; the script reads
`topic.get("field") or {}`, `field.get("display_name") or ""`, `.strip()`,
and `str(topic.get("id", ""))`.  Absent keys and `None` values both fall
back, so a single `Option` per key models them. -/

structure SubObj where
  display_name : Option String
deriving DecidableEq, Repr

structure Topic where
  id : Option String
  field : Option SubObj
  subfield : Option SubObj
deriving DecidableEq, Repr

/-- Python `s.strip()`: trim whitespace at both ends. -/
def pyStrip (s : String) : String :=
  ⟨((s.data.dropWhile Char.isWhitespace).reverse.dropWhile Char.isWhitespace).reverse⟩

/-- Line 44: `fname = ((topic.get("field") or {}).get("display_name") or "").strip()`. -/
def fnameOf (t : Topic) : String :=
  pyStrip (((t.field.getD ⟨none⟩).display_name).getD "")

/-- Line 45: same for the subfield. -/
def snameOf (t : Topic) : String :=
  pyStrip (((t.subfield.getD ⟨none⟩).display_name).getD "")

/-- Lines 46-47 decide whether the topic is kept (the `continue` inverted). -/
def acceptTopic (t : Topic) : Bool :=
  AI_FIELD_SUBFIELD_DISPLAY_NAMES.contains (fnameOf t) ||
    AI_FIELD_SUBFIELD_DISPLAY_NAMES.contains (snameOf t)

/-! ### `get_ai_topic_ids` (lines 32-52)

State is the pair `(topic_ids, seen)`; both are updated together, so
`seen` is modelled as a list used only through membership. -/

/-- Lines 42-51, the body of the inner loop for one topic. -/
def processTopic (st : List String × List String) (t : Topic) :
    List String × List String :=
  if acceptTopic t then
    let tid := short_id ((t.id).getD "")
    if tid ≠ "" ∧ ¬ st.2.contains tid then (st.1 ++ [tid], st.2 ++ [tid]) else st
  else st

/-- Line 36: `max_pages = 10`. -/
def max_pages : Nat := 10

/-- Line 38: `paginate(per_page=200)` in the topic search. -/
def resolver_per_page : Nat := 200

/-- Lines 38-41: `for i, page in enumerate(...): if i >= max_pages: break`,
then the inner loop over the page. -/
def get_ai_topic_ids_go :
    List (List Topic) → Nat → List String × List String → List String × List String
  | [], _, st => st
  | page :: rest, i, st =>
    if max_pages ≤ i then st
    else get_ai_topic_ids_go rest (i + 1) (page.foldl processTopic st)

/-- `get_ai_topic_ids`, as a function of the page stream the API returns. -/
def get_ai_topic_ids (pages : List (List Topic)) : List String :=
  (get_ai_topic_ids_go pages 0 ([], [])).1

/-! ### Specification-side view of the resolver

The spec describes the resolver's output as: take the qualifying topics of
the first `max_pages` pages in order, and keep the first occurrence of
each short id.  These definitions state that view; the theorems below
relate them to `get_ai_topic_ids`. -/

/-- The short id a topic contributes, if it qualifies: it is accepted by
the field/subfield test and its short id is non-empty. -/
def topicQual (t : Topic) : Option String :=
  let tid := short_id ((t.id).getD "")
  if acceptTopic t ∧ tid ≠ "" then some tid else none

/-- The stream of qualifying short ids, in encounter order, over the pages
the resolver actually visits. -/
def qualifyingIds (pages : List (List Topic)) : List String :=
  ((pages.take max_pages).flatten).filterMap topicQual

/-- Append `x` unless it is already present. -/
def insertIfNew (acc : List String) (x : String) : List String :=
  if acc.contains x then acc else acc ++ [x]

/-- First-occurrence deduplication, preserving first-seen order. -/
def dedupFirst (l : List String) : List String :=
  l.foldl insertIfNew []

/-! ### Clock and date formatting (lines 66-67 and 97)

`datetime.now(timezone.utc)` is modelled as a Unix timestamp in whole
seconds (an `Int`); `timedelta(days=3)` is exactly `3 * 86400` seconds.
`strftime("%Y-%m-%d")` depends only on the UTC calendar day, i.e. on
`t / 86400` (floor division, which is what `Int` euclidean division by a
positive divisor computes). -/

/-- The UTC calendar day (days since 1970-01-01) holding timestamp `t`. -/
def utcDay (t : Int) : Int := t / 86400

/-- Proleptic-Gregorian date `(y, m, d)` of a day count since 1970-01-01
(standard civil-from-days computation, all intermediate divisions are
floor divisions by positive constants). -/
def civilFromDays (z0 : Int) : Int × Int × Int :=
  let z := z0 + 719468
  let era := z / 146097
  let doe := z % 146097
  let yoe := (doe - doe / 1460 + doe / 36524 - doe / 146096) / 365
  let doy := doe - (365 * yoe + yoe / 4 - yoe / 100)
  let mp := (5 * doy + 2) / 153
  let d := doy - (153 * mp + 2) / 5 + 1
  let m := mp + (if mp < 10 then 3 else -9)
  (yoe + era * 400 + (if m ≤ 2 then 1 else 0), m, d)

/-- Left-pad a numeral with zeros to width `w`. -/
def padZeros (w : Nat) (s : String) : String :=
  ⟨List.replicate (w - s.length) '0' ++ s.data⟩

/-- `%Y-%m-%d` for a day count. -/
def fmtDay (day : Int) : String :=
  let c := civilFromDays day
  padZeros 4 (toString c.1) ++ "-" ++ padZeros 2 (toString c.2.1) ++ "-" ++
    padZeros 2 (toString c.2.2)

/-- `strftime("%Y-%m-%d")` of a UTC timestamp. -/
def fmtDate (t : Int) : String := fmtDay (utcDay t)

/-- Line 66: `today = datetime.now(timezone.utc).strftime("%Y-%m-%d")`,
as a function of that call's own clock reading. -/
def today_str (t_now1 : Int) : String := fmtDate t_now1

/-- Line 67:
`three_days_ago = (datetime.now(timezone.utc) - timedelta(days=3)).strftime("%Y-%m-%d")`,
as a function of that (second, separate) clock reading. -/
def three_days_ago_str (t_now2 : Int) : String := fmtDate (t_now2 - 3 * 86400)

/-- Day-level value of line 66. -/
def today_day (t_now1 : Int) : Int := utcDay t_now1

/-- Day-level value of line 67. -/
def three_days_ago_day (t_now2 : Int) : Int := utcDay (t_now2 - 3 * 86400)

/-- `strftime("%Y%m%d_%H%M%S")` of a UTC timestamp (line 97). -/
def fmtTimestamp (t : Int) : String :=
  let c := civilFromDays (utcDay t)
  let secs := t % 86400
  padZeros 4 (toString c.1) ++ padZeros 2 (toString c.2.1) ++
    padZeros 2 (toString c.2.2) ++ "_" ++
    padZeros 2 (toString (secs / 3600)) ++ padZeros 2 (toString (secs % 3600 / 60)) ++
    padZeros 2 (toString (secs % 60))

/-! ### The works query (lines 71-81) -/

/-- The single filter sent with the works request.  `type := none` means the
key is absent from the filter (all types). -/
structure WorksFilter where
  primary_topic_id : String
  from_publication_date : String
  to_publication_date : String
  type : Option String
deriving DecidableEq, Repr

/-- Python `"|".join(topic_ids)`. -/
def joinPipe : List String → String
  | [] => ""
  | [x] => x
  | x :: xs => x ++ "|" ++ joinPipe xs

/-- Line 72: `filter_extra = {"type": WORK_TYPE} if WORK_TYPE else {}`
(the `type` key is present iff the configured value is truthy). -/
def filter_extra (wt : Option String) : Option String :=
  match wt with
  | some s => if s = "" then none else some s
  | none => none

/-- Lines 73-81: the filter of the single works query, given the resolved
topic ids and the two formatted dates. -/
def buildWorksFilter (topic_ids : List String)
    (three_days_ago today : String) : WorksFilter :=
  { primary_topic_id := joinPipe topic_ids
    from_publication_date := three_days_ago
    to_publication_date := today
    type := filter_extra WORK_TYPE }

/-! ### Work records and topics trimming (lines 86-90) -/

/-- One entry of a work's `topics` array: its `id` key (possibly absent or
null) and, opaquely, everything else in the entry. -/
structure TopicRef where
  id : Option String
  rest : String
deriving DecidableEq, Repr

/-- A work record: its `topics` key (`none` models both an absent key and a
null value, which Python's `"topics" in p and p["topics"]` treats alike)
and, opaquely, every other field. -/
structure Work where
  topics : Option (List TopicRef)
  rest : String
deriving DecidableEq, Repr

/-- Line 90's predicate: `_short_id(str((t.get("id") or ""))) in ai_topic_id_set`. -/
def keepTopicRef (ai_topic_id_set : List String) (t : TopicRef) : Bool :=
  ai_topic_id_set.contains (short_id ((t.id).getD ""))

/-- Lines 89-90 for one work: if `topics` is present and non-empty, replace
it by its kept entries; otherwise leave the record alone. -/
def trimWork (ai_topic_id_set : List String) (p : Work) : Work :=
  match p.topics with
  | some l =>
    if l = [] then p
    else { p with topics := some (l.filter (keepTopicRef ai_topic_id_set)) }
  | none => p

/-- Lines 88-90: the loop over all fetched papers. -/
def trimWorks (ai_topic_id_set : List String) (papers : List Work) : List Work :=
  papers.map (trimWork ai_topic_id_set)

/-! ### `main` (lines 55-103)

The external world of one run — the topic pages the search returns, the
work pages the works query returns, and the three wall-clock readings the
script takes (lines 66, 67 and 97) — is an explicit environment, and
`main` is the script's pure data transformation over it.  `Except` models
the raised `RuntimeError`: on the error path nothing is written. -/

structure Env where
  topicPages : List (List Topic)
  workPages : List (List Work)
  t_now1 : Int
  t_now2 : Int
  t_write : Int
deriving Repr

/-- Everything a successful run emits: the filter of the works query, the
snapshot file name, and the list serialized into the snapshot. -/
structure RunResult where
  query : WorksFilter
  out_name : String
  saved : List Work
deriving DecidableEq, Repr

/-- Lines 60-63's error message (the f-string interpolation elided). -/
def noTopicsMsg : String :=
  "No topics with field/subfield display_name found. Try checking OpenAlex topic hierarchy."

def main (env : Env) : Except String RunResult :=
  let topic_ids := get_ai_topic_ids env.topicPages
  if topic_ids = [] then
    Except.error noTopicsMsg
  else
    let today := today_str env.t_now1
    let three_days_ago := three_days_ago_str env.t_now2
    let query := buildWorksFilter topic_ids three_days_ago today
    let papers := env.workPages.flatten
    let ai_topic_id_set := topic_ids
    let trimmed := trimWorks ai_topic_id_set papers
    Except.ok
      { query := query
        out_name := "ai_papers_" ++ fmtTimestamp env.t_write ++ ".json"
        saved := trimmed }

/-! ### Concrete sample data (the spec's worked example)

A topic whose subfield is "Artificial Intelligence" and whose id has
short form "1702", and a run at the fixed instant 2024-06-10T00:00:00Z
(Unix time 1717977600). -/

def exTopic : Topic :=
  { id := some "https://openalex.org/subfields/1702"
    field := some { display_name := some "Computer Science" }
    subfield := some { display_name := some "Artificial Intelligence" } }

def exEnv : Env :=
  { topicPages := [[exTopic]]
    workPages := []
    t_now1 := 1717977600
    t_now2 := 1717977600
    t_write := 1717977600 }

def exRun : RunResult :=
  { query := { primary_topic_id := "1702"
               from_publication_date := "2024-06-07"
               to_publication_date := "2024-06-10"
               type := some "article" }
    out_name := "ai_papers_20240610_000000.json"
    saved := [] }

/-- A topic accepted through its subfield despite surrounding whitespace. -/
def exAcceptedTopic : Topic :=
  { id := some "T1"
    field := none
    subfield := some { display_name := some " Artificial intelligence " } }

/-- A topic rejected: lowercase variant not in the accepted set. -/
def exRejectedCaseTopic : Topic :=
  { id := some "T2"
    field := some { display_name := some "artificial intelligence" }
    subfield := none }

/-- A topic rejected: partial match. -/
def exRejectedPartialTopic : Topic :=
  { id := some "T3"
    field := some { display_name := some "Artificial" }
    subfield := none }

/-- A topics-array entry with id short-form "X". -/
def exRefX : TopicRef := { id := some "X", rest := "x" }

/-- A topics-array entry whose id is null/absent. -/
def exRefNull : TopicRef := { id := none, rest := "n" }

/-- A work holding one entry, used by the frame-preservation witness. -/
def exWorkX : Work := { topics := some [exRefX], rest := "payload" }

/-- A work holding one null-id entry. -/
def exWorkNull : Work := { topics := some [exRefNull], rest := "w" }

/-! ## Helper lemmas -/

/-- Unrolling the page loop: the indexed loop with its `break` processes
exactly the first `max_pages - i` remaining pages. -/
lemma go_eq_foldl_take (pages : List (List Topic)) (i : Nat)
    (st : List String × List String) :
    get_ai_topic_ids_go pages i st
      = (pages.take (max_pages - i)).foldl
          (fun st page => page.foldl processTopic st) st := by
  induction pages generalizing i st with
  | nil => simp [get_ai_topic_ids_go]
  | cons page rest ih =>
    by_cases h : max_pages ≤ i
    · have hz : max_pages - i = 0 := Nat.sub_eq_zero_of_le h
      simp [get_ai_topic_ids_go, h, hz]
    · have hs : max_pages - i = (max_pages - (i + 1)) + 1 := by omega
      simp only [get_ai_topic_ids_go, if_neg h, hs, List.take_succ_cons,
        List.foldl_cons]
      exact ih (i + 1) _

/-- One topic step, on a state whose two components agree. -/
lemma processTopic_pair (a : List String) (t : Topic) :
    processTopic (a, a) t =
      (match topicQual t with
       | some tid => (insertIfNew a tid, insertIfNew a tid)
       | none => (a, a)) := by
  unfold processTopic topicQual insertIfNew
  by_cases hacc : acceptTopic t
  · by_cases hne : short_id ((t.id).getD "") ≠ ""
    · by_cases hm : short_id ((t.id).getD "") ∈ a <;>
        simp [hacc, hne, hm]
    · simp [hacc, hne]
  · simp [hacc]

/-- Folding a topic list starting from an agreeing state computes the
first-occurrence insertion of its qualifying ids, on both components. -/
lemma foldl_processTopic_pair (ts : List Topic) (a : List String) :
    ts.foldl processTopic (a, a)
      = ((ts.filterMap topicQual).foldl insertIfNew a,
         (ts.filterMap topicQual).foldl insertIfNew a) := by
  induction ts generalizing a with
  | nil => rfl
  | cons t ts ih =>
    rw [List.foldl_cons, processTopic_pair]
    cases h : topicQual t with
    | none => simp only [List.filterMap_cons, h, ih]
    | some tid => simp only [List.filterMap_cons, h, List.foldl_cons, ih]

/-- Folding over a list of pages starting from an agreeing state. -/
lemma foldl_pages_pair (L : List (List Topic)) (a : List String) :
    L.foldl (fun st page => page.foldl processTopic st) (a, a)
      = ((L.flatten.filterMap topicQual).foldl insertIfNew a,
         (L.flatten.filterMap topicQual).foldl insertIfNew a) := by
  induction L generalizing a with
  | nil => rfl
  | cons page L ih =>
    rw [List.foldl_cons, foldl_processTopic_pair, ih, List.flatten_cons,
      List.filterMap_append, List.foldl_append]

/-- The resolver equals first-occurrence dedup of the qualifying stream. -/
lemma get_ai_topic_ids_eq (pages : List (List Topic)) :
    get_ai_topic_ids pages = dedupFirst (qualifyingIds pages) := by
  unfold get_ai_topic_ids dedupFirst qualifyingIds
  rw [go_eq_foldl_take, Nat.sub_zero, foldl_pages_pair]

lemma mem_insertIfNew (acc : List String) (x y : String) :
    x ∈ insertIfNew acc y ↔ x ∈ acc ∨ x = y := by
  unfold insertIfNew
  by_cases hy : y ∈ acc
  · rw [if_pos (by simpa using hy)]
    constructor
    · exact Or.inl
    · rintro (h | rfl)
      · exact h
      · exact hy
  · simp [hy]

lemma mem_foldl_insertIfNew (l acc : List String) (x : String) :
    x ∈ l.foldl insertIfNew acc ↔ x ∈ acc ∨ x ∈ l := by
  induction l generalizing acc with
  | nil => simp
  | cons y l ih =>
    rw [List.foldl_cons, ih, mem_insertIfNew]
    simp only [List.mem_cons]
    tauto

lemma nodup_insertIfNew (acc : List String) (x : String) (h : acc.Nodup) :
    (insertIfNew acc x).Nodup := by
  unfold insertIfNew
  by_cases hx : x ∈ acc
  · simpa [hx]
  · simpa [hx, ← List.concat_eq_append] using h.concat hx

lemma nodup_foldl_insertIfNew (l acc : List String) (h : acc.Nodup) :
    (l.foldl insertIfNew acc).Nodup := by
  induction l generalizing acc with
  | nil => exact h
  | cons y l ih => exact ih _ (nodup_insertIfNew _ _ h)

/-- A qualifying id is never the empty string. -/
lemma topicQual_ne_empty (t : Topic) (x : String) (h : topicQual t = some x) :
    x ≠ "" := by
  unfold topicQual at h
  simp only at h
  split at h
  · rename_i hcond
    cases h
    exact hcond.2
  · cases h

/-- Every element of the resolver's output is non-empty. -/
lemma get_ai_topic_ids_ne_empty (pages : List (List Topic)) (x : String)
    (hx : x ∈ get_ai_topic_ids pages) : x ≠ "" := by
  rw [get_ai_topic_ids_eq] at hx
  unfold dedupFirst at hx
  rcases (mem_foldl_insertIfNew _ _ _).mp hx with h | h
  · cases h
  · rcases List.mem_filterMap.mp h with ⟨t, _, ht⟩
    exact topicQual_ne_empty t x ht

/-- The resolver's output has no duplicates. -/
lemma get_ai_topic_ids_nodup (pages : List (List Topic)) :
    (get_ai_topic_ids pages).Nodup := by
  rw [get_ai_topic_ids_eq]
  exact nodup_foldl_insertIfNew _ _ List.nodup_nil

/-- Membership in the resolver's output is membership in the qualifying
stream. -/
lemma mem_get_ai_topic_ids (pages : List (List Topic)) (x : String) :
    x ∈ get_ai_topic_ids pages ↔ x ∈ qualifyingIds pages := by
  rw [get_ai_topic_ids_eq]
  unfold dedupFirst
  rw [mem_foldl_insertIfNew]
  simp

/-- The trimming step only ever rewrites the `topics` field, and does so by
filtering (uniformly: an empty or absent array is its own filtering). -/
lemma trimWork_topics (s : List String) (p : Work) :
    (trimWork s p).topics = (p.topics).map (fun l => l.filter (keepTopicRef s)) := by
  rcases p with ⟨topics, rest⟩
  cases topics with
  | none => rfl
  | some l => cases l <;> simp [trimWork]

lemma trimWork_rest (s : List String) (p : Work) :
    (trimWork s p).rest = p.rest := by
  rcases p with ⟨topics, rest⟩
  cases topics with
  | none => rfl
  | some l => cases l <;> simp [trimWork]

lemma trimWork_eq (s : List String) (p : Work) :
    trimWork s p = { topics := (p.topics).map (fun l => l.filter (keepTopicRef s))
                     rest := p.rest } := by
  rw [← trimWork_topics s p, ← trimWork_rest s p]

/-! ## Claim theorems -/

/-- **C1** (counterexample): the claim says both dates come from a single
per-run clock reading, so `date_from = date_to - 3` for every run.  The
script reads the clock once per date (lines 66 and 67); with the line-66
reading at 1970-01-04T23:59:59Z (345599) and the line-67 reading one
second later at 1970-01-05T00:00:00Z (345600), the window is
`date_from = "1970-01-02"`, `date_to = "1970-01-04"`: `date_from` is only
2 days before `date_to`. -/
theorem C1_counterexample :
    three_days_ago_day 345600 ≠ today_day 345599 - 3 ∧
    today_str 345599 = "1970-01-04" ∧
    three_days_ago_str 345600 = "1970-01-02" := by
  refine ⟨by decide, by decide, by decide⟩

/-- **C1** (amended): `date_to` is the UTC date of the line-66 clock
reading and `date_from` is the UTC date of the line-67 clock reading
minus 3 days, both formatted `YYYY-MM-DD`; whenever the two readings fall
on the same UTC calendar day (i.e. the run does not cross UTC midnight
between the two statements), `date_from` is exactly 3 calendar days
before `date_to`. -/
theorem C1_date_window (t_now1 t_now2 : Int) (h : utcDay t_now1 = utcDay t_now2) :
    three_days_ago_day t_now2 = today_day t_now1 - 3 ∧
    three_days_ago_str t_now2 = fmtDay (today_day t_now1 - 3) ∧
    today_str t_now1 = fmtDay (today_day t_now1) := by
  have hd : three_days_ago_day t_now2 = today_day t_now1 - 3 := by
    unfold three_days_ago_day today_day utcDay at *
    omega
  refine ⟨hd, ?_, rfl⟩
  show fmtDay (three_days_ago_day t_now2) = _
  rw [hd]

/-- Witness for C1: a run with both readings at 2024-06-10T00:00:00Z has
the window 2024-06-07 .. 2024-06-10. -/
theorem C1_date_window_witness :
    utcDay 1717977600 = utcDay 1717977600 ∧
    (three_days_ago_day 1717977600 = today_day 1717977600 - 3 ∧
     three_days_ago_str 1717977600 = fmtDay (today_day 1717977600 - 3) ∧
     today_str 1717977600 = fmtDay (today_day 1717977600)) ∧
    three_days_ago_str 1717977600 = "2024-06-07" ∧
    today_str 1717977600 = "2024-06-10" :=
  ⟨rfl, C1_date_window 1717977600 1717977600 rfl, by decide, by decide⟩

/-- **C2**: a work with a present, non-empty `topics` array has it replaced
by exactly its entries whose short-form id is in the resolved set, in
original relative order (`List.filter` is order-preserving); a work with an
absent `topics` field or an empty array is returned unchanged. -/
theorem C2_trim_topics (s : List String) (p : Work) :
    (∀ l : List TopicRef, p.topics = some l → l ≠ [] →
        trimWork s p = { p with topics := some (l.filter (keepTopicRef s)) }) ∧
    ((p.topics = none ∨ p.topics = some []) → trimWork s p = p) := by
  constructor
  · intro l hl hne
    unfold trimWork
    rw [hl]
    simp [hne]
  · rintro (h | h)
    · unfold trimWork
      rw [h]
    · unfold trimWork
      rw [h]
      simp

/-- Witness for C2: the spec's example — `topics = [A, B, C]` with only
`A` and `C` resolved becomes `[A, C]` in order; and empty/missing topics
are untouched. -/
theorem C2_trim_topics_witness :
    trimWork ["A", "C"]
        { topics := some [{ id := some "A", rest := "a" },
                          { id := some "B", rest := "b" },
                          { id := some "C", rest := "c" }], rest := "w" }
      = { topics := some [{ id := some "A", rest := "a" },
                          { id := some "C", rest := "c" }], rest := "w" } ∧
    trimWork ["A", "C"] { topics := none, rest := "w" }
      = { topics := none, rest := "w" } ∧
    trimWork ["A", "C"] { topics := some [], rest := "w" }
      = { topics := some [], rest := "w" } := by
  refine ⟨?_, ?_, ?_⟩
  · have h := (C2_trim_topics ["A", "C"]
        { topics := some [{ id := some "A", rest := "a" },
                          { id := some "B", rest := "b" },
                          { id := some "C", rest := "c" }], rest := "w" }).1
        [{ id := some "A", rest := "a" }, { id := some "B", rest := "b" },
         { id := some "C", rest := "c" }] rfl (by simp)
    exact h.trans (by decide)
  · exact (C2_trim_topics ["A", "C"] _).2 (Or.inl rfl)
  · exact (C2_trim_topics ["A", "C"] _).2 (Or.inr rfl)

/-- **C3**: a topic is accepted iff its trimmed `field.display_name` or its
trimmed `subfield.display_name` (absent or null sub-objects read as the
empty string) is exactly one of the two accepted case variants. -/
theorem C3_accept_iff (t : Topic) :
    acceptTopic t = true ↔
      (fnameOf t = "Artificial intelligence" ∨ fnameOf t = "Artificial Intelligence" ∨
       snameOf t = "Artificial intelligence" ∨ snameOf t = "Artificial Intelligence") := by
  unfold acceptTopic AI_FIELD_SUBFIELD_DISPLAY_NAMES
  simp [or_assoc]

/-- Witness for C3: a subfield-only match with surrounding whitespace is
accepted; a lowercase variant and a partial match are rejected. -/
theorem C3_accept_iff_witness :
    acceptTopic exAcceptedTopic = true ∧
    acceptTopic exRejectedCaseTopic = false ∧
    acceptTopic exRejectedPartialTopic = false := by
  refine ⟨(C3_accept_iff exAcceptedTopic).mpr (by decide), ?_, ?_⟩
  · have h : ¬ (acceptTopic exRejectedCaseTopic = true) :=
      fun hh => absurd ((C3_accept_iff exRejectedCaseTopic).mp hh) (by decide)
    simpa using h
  · have h : ¬ (acceptTopic exRejectedPartialTopic = true) :=
      fun hh => absurd ((C3_accept_iff exRejectedPartialTopic).mp hh) (by decide)
    simpa using h

/-- **C4**: the resolver's output is exactly the first-occurrence
deduplication of the qualifying-id stream of the visited pages (hence in
first-seen order), it has no duplicates, every element is non-empty, and
every qualifying short id appears in it exactly once. -/
theorem C4_resolver_invariant (pages : List (List Topic)) :
    get_ai_topic_ids pages = dedupFirst (qualifyingIds pages) ∧
    (get_ai_topic_ids pages).Nodup ∧
    (∀ x ∈ get_ai_topic_ids pages, x ≠ "") ∧
    (∀ x ∈ qualifyingIds pages, (get_ai_topic_ids pages).count x = 1) := by
  refine ⟨get_ai_topic_ids_eq pages, get_ai_topic_ids_nodup pages,
    fun x hx => get_ai_topic_ids_ne_empty pages x hx, fun x hx => ?_⟩
  exact List.count_eq_one_of_mem (get_ai_topic_ids_nodup pages)
    ((mem_get_ai_topic_ids pages x).mpr hx)

/-- Witness for C4: a page stream with a duplicated qualifying topic; its
short id "1702" qualifies and appears exactly once in the output. -/
theorem C4_resolver_invariant_witness :
    "1702" ∈ qualifyingIds [[exTopic, exTopic]] ∧
    (get_ai_topic_ids [[exTopic, exTopic]]).count "1702" = 1 ∧
    get_ai_topic_ids [[exTopic, exTopic]] = ["1702"] :=
  ⟨by decide, (C4_resolver_invariant [[exTopic, exTopic]]).2.2.2 "1702" (by decide),
    by decide⟩

/-- **C5**: the run fails with the fatal error exactly when the resolver
returns no ids, and a successful run (the only path that reaches the
snapshot write) implies at least one id was resolved. -/
theorem C5_empty_resolution_fatal (env : Env) :
    (get_ai_topic_ids env.topicPages = [] ↔ main env = Except.error noTopicsMsg) ∧
    (∀ r : RunResult, main env = Except.ok r → get_ai_topic_ids env.topicPages ≠ []) := by
  constructor
  · constructor
    · intro h
      unfold main
      rw [if_pos h]
    · intro h
      by_cases hz : get_ai_topic_ids env.topicPages = []
      · exact hz
      · unfold main at h
        rw [if_neg hz] at h
        cases h
  · intro r hr hz
    unfold main at hr
    rw [if_pos hz] at hr
    cases hr

/-- Witness for C5: a run whose topic search returns no pages errors out
and writes nothing. -/
theorem C5_empty_resolution_fatal_witness :
    main { topicPages := [], workPages := [], t_now1 := 0, t_now2 := 0, t_write := 0 }
      = Except.error noTopicsMsg :=
  ((C5_empty_resolution_fatal
      { topicPages := [], workPages := [], t_now1 := 0, t_now2 := 0, t_write := 0 }).1).mp
    (by decide)

/-- **C6**: short-id normalization behaves as specified on the three spec
examples; an identifier without a separator is returned verbatim; and the
empty id is never an element of the resolver's output. -/
theorem C6_short_id_norm (oid : String) :
    short_id "https://openalex.org/subfields/1702" = "1702" ∧
    short_id "T12345" = "T12345" ∧
    short_id "" = "" ∧
    (oid.data.contains '/' = false → short_id oid = oid) ∧
    (∀ pages : List (List Topic), "" ∉ get_ai_topic_ids pages) := by
  refine ⟨by decide, by decide, by decide, ?_, ?_⟩
  · intro h
    unfold short_id
    by_cases he : oid = ""
    · rw [if_pos he, he]
    · rw [if_neg he, if_neg (by simpa using h)]
  · intro pages hmem
    exact get_ai_topic_ids_ne_empty pages "" hmem rfl

/-- Witness for C6: a separator-free id with a trailing-slash variant. -/
theorem C6_short_id_norm_witness :
    ("T999".data.contains '/' = false) ∧ short_id "T999" = "T999" ∧
    short_id "https://openalex.org/topics/T10028/" = "T10028" :=
  ⟨by decide, (C6_short_id_norm "T999").2.2.2.1 (by decide), by decide⟩

/-- **C7**: every successful run sends one single filter combining the
OR-join (pipe-join) of all resolved topic ids, the two date bounds, and
the `type` key, which carries the configured work type (`"article"` by
default) and is omitted when the configured type is off (`none`). -/
theorem C7_single_filter (env : Env) (r : RunResult)
    (h : main env = Except.ok r) :
    r.query = buildWorksFilter (get_ai_topic_ids env.topicPages)
        (three_days_ago_str env.t_now2) (today_str env.t_now1) ∧
    r.query.primary_topic_id = joinPipe (get_ai_topic_ids env.topicPages) ∧
    r.query.from_publication_date = three_days_ago_str env.t_now2 ∧
    r.query.to_publication_date = today_str env.t_now1 ∧
    r.query.type = some "article" ∧
    filter_extra none = none := by
  by_cases hz : get_ai_topic_ids env.topicPages = []
  · unfold main at h
    rw [if_pos hz] at h
    cases h
  · unfold main at h
    rw [if_neg hz] at h
    cases h
    exact ⟨rfl, rfl, rfl, rfl, rfl, rfl⟩

/-- Witness for C7: the spec's end-to-end example — resolved set
`{"1702"}` and both clock readings at 2024-06-10T00:00:00Z produce the
filter `primary_topic.id = "1702"`, dates 2024-06-07 .. 2024-06-10,
`type = "article"`. -/
theorem C7_single_filter_witness :
    main exEnv = Except.ok exRun ∧
    exRun.query.primary_topic_id = "1702" ∧
    exRun.query.from_publication_date = "2024-06-07" ∧
    exRun.query.to_publication_date = "2024-06-10" ∧
    exRun.query.type = some "article" := by
  have h := C7_single_filter exEnv exRun rfl
  exact ⟨rfl, by decide, by decide, by decide, h.2.2.2.2.1⟩

/-- **C8**: the resolver's result depends only on the first `max_pages`
(= 10) pages of the stream: any two streams agreeing on those pages give
the same result, and an arbitrarily long stream is cut off at the cap
(the embedding is a total function, so termination is by construction);
the request asks for pages of up to 200 records. -/
theorem C8_page_cap :
    (∀ pages : List (List Topic),
        get_ai_topic_ids pages = get_ai_topic_ids (pages.take max_pages)) ∧
    (∀ (f : Nat → List Topic) (n : Nat), max_pages ≤ n →
        get_ai_topic_ids ((List.range n).map f)
          = get_ai_topic_ids ((List.range max_pages).map f)) ∧
    max_pages = 10 ∧ resolver_per_page = 200 := by
  have htake : ∀ pages : List (List Topic),
      get_ai_topic_ids pages = get_ai_topic_ids (pages.take max_pages) := by
    intro pages
    unfold get_ai_topic_ids
    rw [go_eq_foldl_take, go_eq_foldl_take, Nat.sub_zero, List.take_take,
      Nat.min_self]
  refine ⟨htake, fun f n hn => ?_, rfl, rfl⟩
  rw [htake ((List.range n).map f), htake ((List.range max_pages).map f),
    ← List.map_take, ← List.map_take, List.take_range, List.take_range,
    Nat.min_self, Nat.min_eq_left hn]

/-- Witness for C8: a 12-page stream gives the same result as its first 10
pages. -/
theorem C8_page_cap_witness :
    max_pages ≤ 12 ∧
    get_ai_topic_ids ((List.range 12).map fun _ => [exTopic])
      = get_ai_topic_ids ((List.range max_pages).map fun _ => [exTopic]) :=
  ⟨by decide, C8_page_cap.2.1 (fun _ => [exTopic]) 12 (by decide)⟩

/-- **C9**: trimming is frame-preserving — the work list keeps its length
and order, every field other than `topics` (modelled by `rest`) is intact,
and a work whose whole `topics` array is filtered away stays in the list
with `topics = some []`. -/
theorem C9_trim_frame (s : List String) (ps : List Work) :
    (trimWorks s ps).length = ps.length ∧
    (∀ (i : Nat) (p : Work), ps[i]? = some p →
        (trimWorks s ps)[i]? =
          some { topics := (p.topics).map (fun l => l.filter (keepTopicRef s))
                 rest := p.rest }) ∧
    (∀ (i : Nat) (p : Work) (l : List TopicRef), ps[i]? = some p →
        p.topics = some l → l.filter (keepTopicRef s) = [] →
        (trimWorks s ps)[i]? = some { topics := some [], rest := p.rest }) := by
  have hpt : ∀ (i : Nat) (p : Work), ps[i]? = some p →
      (trimWorks s ps)[i]? =
        some { topics := (p.topics).map (fun l => l.filter (keepTopicRef s))
               rest := p.rest } := by
    intro i p hp
    unfold trimWorks
    rw [List.getElem?_map, hp, Option.map_some', trimWork_eq]
  refine ⟨by simp [trimWorks], hpt, fun i p l hp hl hf => ?_⟩
  rw [hpt i p hp, hl]
  simp [hf]

/-- Witness for C9: a one-element list whose only work loses all its topic
entries; it survives as the same record with an emptied `topics`. -/
theorem C9_trim_frame_witness :
    ([exWorkX])[0]? = some exWorkX ∧
    exWorkX.topics = some [exRefX] ∧
    [exRefX].filter (keepTopicRef []) = [] ∧
    (trimWorks [] [exWorkX])[0]? = some { topics := some [], rest := "payload" } :=
  ⟨rfl, rfl, by decide,
    (C9_trim_frame [] [exWorkX]).2.2 0 exWorkX [exRefX] rfl rfl (by decide)⟩

/-- **C10**: when the resolver's output is the trimming set, an entry of a
non-empty `topics` array whose `id` is absent, null, or empty never
survives trimming: its short id is the empty string, and the resolved set
contains no empty string. -/
theorem C10_empty_id_removed (pages : List (List Topic)) (p : Work)
    (l : List TopicRef) (h : p.topics = some l) (_hne : l ≠ [])
    (t : TopicRef) (ht : t.id = none ∨ t.id = some "") :
    t ∉ ((trimWork (get_ai_topic_ids pages) p).topics).getD [] := by
  intro hmem
  have htop : (trimWork (get_ai_topic_ids pages) p).topics
      = some (l.filter (keepTopicRef (get_ai_topic_ids pages))) := by
    rw [trimWork_topics, h, Option.map_some']
  rw [htop, Option.getD_some] at hmem
  have hkeep := (List.mem_filter.mp hmem).2
  have hid : ((t.id).getD "") = "" := by
    rcases ht with h1 | h1 <;> rw [h1] <;> rfl
  unfold keepTopicRef at hkeep
  rw [hid] at hkeep
  have hshort : short_id "" = "" := rfl
  rw [hshort] at hkeep
  have hmem2 : ("" : String) ∈ get_ai_topic_ids pages := by simpa using hkeep
  exact get_ai_topic_ids_ne_empty pages "" hmem2 rfl

/-- Witness for C10: with an empty resolver output and a work holding one
null-id entry and one absent-id entry, neither entry survives. -/
theorem C10_empty_id_removed_witness :
    exWorkNull.topics = some [exRefNull] ∧
    ([exRefNull] ≠ []) ∧
    (exRefNull.id = none ∨ exRefNull.id = some "") ∧
    exRefNull ∉ ((trimWork (get_ai_topic_ids []) exWorkNull).topics).getD [] :=
  ⟨rfl, by decide, Or.inl rfl,
    C10_empty_id_removed [] exWorkNull [exRefNull] rfl (by decide) exRefNull (Or.inl rfl)⟩

end FetchAiPapers
